import Mathlib

/-!
Verification of the k6 result analyzer (`k6/analyze_results.py`).

The script is embedded shallowly: JSON values become the `Json` inductive,
Python dictionary/attribute access and numeric coercions become
`Except`-valued functions that return the exception message on the paths
where Python raises, and the sequence of `print` calls becomes a list of
structured `Line` values paired with an optional uncaught exception (`Tr`).

Numbers are exact fractions (`Frac`, an integer numerator over an integer
denominator, kept unnormalized so that every operation is a plain integer
computation); `Frac.toRat` interprets them in `ℚ`, and binary
floating-point rounding is outside the scope of every claim here.  Every
number the program itself constructs has a positive denominator, and the
theorems assume the same of numbers drawn from the input file, which is
what a decimal in a JSON document denotes.
-/

namespace K6

/-- An exact fraction `num / den`.  All constructed values keep
`0 < den`. -/
structure Frac where
  num : Int
  den : Int
deriving DecidableEq

/-- The rational value of a fraction. -/
def Frac.toRat (x : Frac) : ℚ := (x.num : ℚ) / (x.den : ℚ)

/-- Strict comparison by cross-multiplication; agrees with the rational
order when both denominators are positive. -/
def Frac.blt (a b : Frac) : Bool := decide (a.num * b.den < b.num * a.den)

/-- Fraction product. -/
def Frac.mul (a b : Frac) : Frac := ⟨a.num * b.num, a.den * b.den⟩

/-- Fraction quotient; used only with positive divisors. -/
def Frac.div (a b : Frac) : Frac := ⟨a.num * b.den, a.den * b.num⟩

/-- The integer `n` as a fraction. -/
def Frac.ofInt (n : Int) : Frac := ⟨n, 1⟩

/-- A parsed JSON document, as returned by `json.load`. -/
inductive Json where
  | null
  | bool (b : Bool)
  | num (x : Frac)
  | str (s : String)
  | arr (elems : List Json)
  | obj (fields : List (String × Json))

/-- First-match association lookup, the semantics of Python `dict` access
for the string keys this program uses (keys of a parsed JSON object). -/
def lookupField : List (String × Json) → String → Option Json
  | [], _ => none
  | (k, v) :: rest, key => if k == key then some v else lookupField rest key

/-- Python `key in container`.  For a dict this is key membership, for a
list it is element membership (the needle is always a string literal in
this program), for a string it is substring search; other receivers raise
`TypeError`. -/
def pyIn (key : String) : Json → Except String Bool
  | .obj fs => .ok (lookupField fs key).isSome
  | .arr xs => .ok (xs.any fun x => match x with | .str s => s == key | _ => false)
  | .str s => .ok (decide ((s.splitOn key).length ≠ 1))
  | _ => .error "TypeError: argument of type is not iterable"

/-- Python `container[key]` for a string key: dict lookup (`KeyError` when
absent); lists and strings demand integer indices; everything else is not
subscriptable. -/
def pyIndex (j : Json) (key : String) : Except String Json :=
  match j with
  | .obj fs =>
    match lookupField fs key with
    | some v => .ok v
    | none => .error ("KeyError: " ++ key)
  | .arr _ => .error "TypeError: list indices must be integers"
  | .str _ => .error "TypeError: string indices must be integers"
  | _ => .error "TypeError: object is not subscriptable"

/-- Python `d.get(key, default)`: only dicts have the `get` attribute. -/
def pyDictGet (j : Json) (key : String) (dflt : Json) : Except String Json :=
  match j with
  | .obj fs => .ok ((lookupField fs key).getD dflt)
  | _ => .error "AttributeError: object has no attribute get"

/-- Digit run to a natural number. -/
def digitsToNat (cs : List Char) : Nat :=
  cs.foldl (fun n c => n * 10 + (c.toNat - 48)) 0

/-- Decimal literals accepted by Python `float`: optional surrounding
spaces, an optional sign, digits with an optional fractional part.
(Python also accepts exponents, `inf`, `nan` and underscores; no input in
the repository or in any claim uses those forms.) -/
def parseDecimal (s : String) : Option Frac :=
  let cs := ((s.toList.dropWhile (· == ' ')).reverse.dropWhile (· == ' ')).reverse
  let signAndRest : Int × List Char :=
    match cs with
    | '-' :: rest => (-1, rest)
    | '+' :: rest => (1, rest)
    | _ => (1, cs)
  let sign := signAndRest.1
  let body := signAndRest.2
  let intPart := body.takeWhile Char.isDigit
  let rest := body.dropWhile Char.isDigit
  match rest with
  | [] =>
    if intPart.isEmpty then none
    else some ⟨sign * (digitsToNat intPart : Int), 1⟩
  | '.' :: frac =>
    if frac.all Char.isDigit && !(intPart.isEmpty && frac.isEmpty) then
      some ⟨sign * ((digitsToNat intPart : Int) * 10 ^ frac.length + (digitsToNat frac : Int)),
            (10 : Int) ^ frac.length⟩
    else none
  | _ => none

/-- Python `float(x)`: numbers pass through, booleans count as 0/1,
strings are parsed as decimal literals (`ValueError` when not numeric),
anything else raises `TypeError`. -/
def pyFloat : Json → Except String Frac
  | .num x => .ok x
  | .bool b => .ok (if b then ⟨1, 1⟩ else ⟨0, 1⟩)
  | .str s =>
    match parseDecimal s with
    | some x => .ok x
    | none => .error ("ValueError: could not convert string to float: " ++ s)
  | _ => .error "TypeError: float() argument must be a string or a real number"

/-- Python `x < c` for a numeric literal `c`: defined for numbers and
booleans, a `TypeError` for every other operand type. -/
def pyLt (j : Json) (c : Frac) : Except String Bool :=
  match j with
  | .num x => .ok (x.blt c)
  | .bool b => .ok (Frac.blt (if b then ⟨1, 1⟩ else ⟨0, 1⟩) c)
  | _ => .error "TypeError: not supported between instances"

/-- Python `x > c` for a numeric literal `c`. -/
def pyGt (j : Json) (c : Frac) : Except String Bool :=
  match j with
  | .num x => .ok (c.blt x)
  | .bool b => .ok (c.blt (if b then ⟨1, 1⟩ else ⟨0, 1⟩))
  | _ => .error "TypeError: not supported between instances"

/-- Python `x * c` for a numeric literal `c`.  A string operand would be
sequence repetition, but every use site first compares `x` against a
number, which already raised for strings, so that case is unreachable. -/
def pyMul (j : Json) (c : Frac) : Except String Frac :=
  match j with
  | .num x => .ok (x.mul c)
  | .bool b => .ok (Frac.mul (if b then ⟨1, 1⟩ else ⟨0, 1⟩) c)
  | _ => .error "TypeError: unsupported operand type for mul"

/-- Python `x / c` for a positive numeric literal `c`. -/
def pyDiv (j : Json) (c : Frac) : Except String Frac :=
  match j with
  | .num x => .ok (x.div c)
  | .bool b => .ok (Frac.div (if b then ⟨1, 1⟩ else ⟨0, 1⟩) c)
  | _ => .error "TypeError: unsupported operand type for div"

/-- Fixed-point rendering with exactly two decimals, the shape produced
by the format specifier `:.2f`: the nearest count of hundredths, split
around a decimal point.  Correct for positive denominators; ties at
exact half-hundredths round up here where Python rounds to even, and no
claim exercises a tie. -/
def fmtF2 (q : Frac) : String :=
  let n : Int := (2 * (q.num * 100) + q.den).ediv (2 * q.den)
  let sign := if n < 0 then "-" else ""
  let m := n.natAbs
  sign ++ toString (m / 100) ++ "." ++ (if m % 100 < 10 then "0" else "") ++ toString (m % 100)

def glyphGood : String := "✅"

def glyphWarn : String := "⚠️ "

def glyphCrit : String := "❌"

def recHighError : String := "⚠️  High error rate detected. Check backend logs."

def recElevatedError : String := "⚠️  Error rate above 1%. Investigate failed endpoints."

def recLatencyWarn : String := "⚠️  P95 latency > 1s. Consider optimization."

def recLatencyElevated : String := "ℹ️  P95 latency acceptable but slightly elevated."

def recLatencyExcellent : String := "✅ Latency is excellent!"

def recLoadPassed : String := "✅ Load test passed! System is performing well."

def recFallback : String := "ℹ️  Test completed successfully."

/-- One `print` call of the script, with the data interpolated into the
corresponding f-string carried structurally. -/
inductive Line where
  | nlBanner
  | title
  | fileLine (path : String)
  | bannerNl
  | banner
  | metaHeader
  | metaEnv (v : Json)
  | metaTestType (v : Json)
  | emptyLine
  | kpiHeader
  | dash60
  | durHeader
  | durStat (stat : String) (val : Json) (glyph : String)
  | durScalar (v : Json)
  | reqHeader
  | reqTotal (v : Json)
  | errHeader
  | rateLine (pct : String) (glyph : String)
  | failedLine (v : Json)
  | vusHeader
  | vusCur (v : Json)
  | vusMaxLine (v : Json)
  | dataHeader
  | dataRecv (mb : String)
  | dataSentLine (mb : String)
  | recHeader
  | recLine (r : String)
  | errorReading (e : String)
  | plain (s : String)
  | fileNotFound (p : String)

/-- A trace of the script body: the lines printed before control left the
function, and the uncaught exception if one was raised. -/
structure Tr where
  out : List Line
  exc : Option String

/-- The trace of code that prints nothing and returns normally. -/
def Tr.done : Tr := ⟨[], none⟩

/-- Evaluate a Python expression that may raise; on an exception nothing
further runs, otherwise continue with its value. -/
def Tr.bindE {α : Type} (x : Except String α) (k : α → Tr) : Tr :=
  match x with
  | .error e => ⟨[], some e⟩
  | .ok a => k a

/-- Print the given lines, then continue. -/
def Tr.emit (ls : List Line) (k : Tr) : Tr := ⟨ls ++ k.out, k.exc⟩

/-- Run two pieces of straight-line code in order; an exception in the
first abandons the second. -/
def Tr.seq (a b : Tr) : Tr :=
  match a.exc with
  | some _ => a
  | none => ⟨a.out ++ b.out, b.exc⟩

/-- Source lines 26-31: the metadata section. -/
def metadataSection (data : Json) : Tr :=
  Tr.bindE (pyIn "metadata" data) fun b =>
  if b then
    Tr.bindE (pyIndex data "metadata") fun meta =>
    Tr.emit [.metaHeader] <|
    Tr.bindE (pyDictGet meta "env" (Json.obj [])) fun env =>
    Tr.bindE (pyDictGet env "BASE_URL" (Json.str "Unknown")) fun base =>
    Tr.emit [.metaEnv base] <|
    Tr.bindE (pyDictGet meta "testType" (Json.str "Unknown")) fun tt =>
    Tr.emit [.metaTestType tt, .emptyLine] Tr.done
  else Tr.done

/-- Source lines 36-38, loop body: the collected dict is never read, but
the membership test and subscript can still raise. -/
def collectLoop : List (String × Json) → Except String Unit
  | [] => .ok ()
  | (_, md) :: rest =>
    match pyIn "values" md with
    | .error e => .error e
    | .ok true =>
      match pyIndex md "values" with
      | .error e => .error e
      | .ok _ => collectLoop rest
    | .ok false => collectLoop rest

/-- Source lines 34-38: build the (unused) per-metric values table. -/
def collectMetricsStep (data : Json) : Tr :=
  Tr.bindE (pyIn "metrics" data) fun b =>
  if b then
    Tr.bindE (pyIndex data "metrics") fun m =>
    match m with
    | .obj fs => Tr.bindE (collectLoop fs) fun _ => Tr.done
    | _ => ⟨[], some "AttributeError: object has no attribute items"⟩
  else Tr.done

/-- The statistic labels recognized at source line 50. -/
def recognizedStats : List String := ["p(95)", "p(99)", "avg", "min", "max"]

/-- Source lines 49-52: iterate the duration statistics in the order the
keys appear in the input mapping, printing only recognized labels;
`float(val)` decides the glyph and raises on non-numeric values. -/
def durStatLoop : List (String × Json) → Tr
  | [] => Tr.done
  | (stat, val) :: rest =>
    if stat ∈ recognizedStats then
      Tr.bindE (pyFloat val) fun x =>
      Tr.emit [.durStat stat val
        (if x.blt ⟨500, 1⟩ then glyphGood else if x.blt ⟨1000, 1⟩ then glyphWarn else glyphCrit)]
        (durStatLoop rest)
    else durStatLoop rest

/-- Source lines 45-54: the HTTP request duration section. -/
def durationSection (samples : Json) : Tr :=
  Tr.bindE (pyIn "http_req_duration" samples) fun b =>
  if b then
    Tr.bindE (pyIndex samples "http_req_duration") fun entry =>
    Tr.bindE (pyDictGet entry "values" (Json.obj [])) fun values =>
    Tr.emit [.durHeader] <|
    match values with
    | .obj fs => durStatLoop fs
    | .num _ | .bool _ => Tr.emit [.durScalar values] Tr.done
    | _ => Tr.done
  else Tr.done

/-- Source lines 57-60: the request count section. -/
def requestsSection (samples : Json) : Tr :=
  Tr.bindE (pyIn "http_requests" samples) fun b =>
  if b then
    Tr.bindE (pyIndex samples "http_requests") fun entry =>
    Tr.bindE (pyDictGet entry "value" (Json.num ⟨0, 1⟩)) fun v =>
    Tr.emit [.reqHeader, .reqTotal v] Tr.done
  else Tr.done

/-- Source line 66: the two-tier status glyph for the error rate. -/
def rateGlyph (rate : Json) : Except String String := do
  if ← pyLt rate ⟨1, 100⟩ then pure glyphGood
  else if ← pyLt rate ⟨5, 100⟩ then pure glyphWarn
  else pure glyphCrit

/-- Source lines 63-69: the error-rate section.  `failed` and `rate`
default to 0, the glyph is computed before the rate line is printed, and
the rate is scaled to a percentage with two decimals. -/
def errorRateSection (samples : Json) : Tr :=
  Tr.bindE (pyIn "http_req_failed" samples) fun b =>
  if b then
    Tr.bindE (pyIndex samples "http_req_failed") fun entry =>
    Tr.bindE (pyDictGet entry "value" (Json.num ⟨0, 1⟩)) fun failed =>
    Tr.bindE (pyDictGet entry "rate" (Json.num ⟨0, 1⟩)) fun rate =>
    Tr.bindE (rateGlyph rate) fun g =>
    Tr.emit [.errHeader] <|
    Tr.bindE (pyMul rate ⟨100, 1⟩) fun pct =>
    Tr.emit [.rateLine (fmtF2 pct) g, .failedLine failed] Tr.done
  else Tr.done

/-- Source lines 72-78: the virtual-users section; the header is printed
unconditionally, the two figures independently. -/
def vusSection (samples : Json) : Tr :=
  Tr.emit [.vusHeader] <| Tr.seq
    (Tr.bindE (pyIn "vus" samples) fun b =>
      if b then
        Tr.bindE (pyIndex samples "vus") fun entry =>
        Tr.bindE (pyDictGet entry "value" (Json.num ⟨0, 1⟩)) fun v =>
        Tr.emit [.vusCur v] Tr.done
      else Tr.done)
    (Tr.bindE (pyIn "vus_max" samples) fun b =>
      if b then
        Tr.bindE (pyIndex samples "vus_max") fun entry =>
        Tr.bindE (pyDictGet entry "value" (Json.num ⟨0, 1⟩)) fun v =>
        Tr.emit [.vusMaxLine v] Tr.done
      else Tr.done)

/-- Source lines 81-87: the data-transfer section; the header is printed
unconditionally, each figure is bytes divided by 1024 twice. -/
def dataSection (samples : Json) : Tr :=
  Tr.emit [.dataHeader] <| Tr.seq
    (Tr.bindE (pyIn "data_received" samples) fun b =>
      if b then
        Tr.bindE (pyIndex samples "data_received") fun entry =>
        Tr.bindE (pyDictGet entry "value" (Json.num ⟨0, 1⟩)) fun v =>
        Tr.bindE (pyDiv v ⟨1024, 1⟩) fun k =>
        Tr.emit [.dataRecv (fmtF2 (k.div ⟨1024, 1⟩))] Tr.done
      else Tr.done)
    (Tr.bindE (pyIn "data_sent" samples) fun b =>
      if b then
        Tr.bindE (pyIndex samples "data_sent") fun entry =>
        Tr.bindE (pyDictGet entry "value" (Json.num ⟨0, 1⟩)) fun v =>
        Tr.bindE (pyDiv v ⟨1024, 1⟩) fun k =>
        Tr.emit [.dataSentLine (fmtF2 (k.div ⟨1024, 1⟩))] Tr.done
      else Tr.done)

/-- Source lines 97-102: the error-rate recommendation check, an
`if`/`elif` chain that appends at most one message. -/
def checkErrorRate (samples : Json) : Except String (List String) := do
  if ← pyIn "http_req_failed" samples then
    let entry ← pyIndex samples "http_req_failed"
    let rate ← pyDictGet entry "rate" (Json.num ⟨0, 1⟩)
    if ← pyGt rate ⟨5, 100⟩ then pure [recHighError]
    else if ← pyGt rate ⟨1, 100⟩ then pure [recElevatedError]
    else pure []
  else pure []

/-- Source lines 109-110: a string p95 is coerced with `float`; every
other value is left as is. -/
def coerceP95 : Json → Except String Json
  | .str s =>
    match parseDecimal s with
    | some x => .ok (.num x)
    | none => .error ("ValueError: could not convert string to float: " ++ s)
  | v => .ok v

/-- Source lines 105-116: the latency recommendation check.  When the
values field is a mapping, the missing p95 defaults to 0 and exactly one
of the three messages is appended. -/
def checkLatency (samples : Json) : Except String (List String) := do
  if ← pyIn "http_req_duration" samples then
    let entry ← pyIndex samples "http_req_duration"
    let values ← pyDictGet entry "values" (Json.obj [])
    match values with
    | .obj fs => do
      let p95 ← coerceP95 ((lookupField fs "p(95)").getD (Json.num ⟨0, 1⟩))
      if ← pyGt p95 ⟨1000, 1⟩ then pure [recLatencyWarn]
      else if ← pyGt p95 ⟨500, 1⟩ then pure [recLatencyElevated]
      else pure [recLatencyExcellent]
    | _ => pure []
  else pure []

/-- Source lines 119-128: the overall-health check, appending the
load-test-passed message when the error rate is below 1% and p95 is
below 500. -/
def checkOverall (samples : Json) : Except String (List String) := do
  if ← pyIn "http_req_failed" samples then
    let entry ← pyIndex samples "http_req_failed"
    let rate ← pyDictGet entry "rate" (Json.num ⟨0, 1⟩)
    if ← pyLt rate ⟨1, 100⟩ then
      if ← pyIn "http_req_duration" samples then
        let dentry ← pyIndex samples "http_req_duration"
        let values ← pyDictGet dentry "values" (Json.obj [])
        match values with
        | .obj fs => do
          let p95 ← coerceP95 ((lookupField fs "p(95)").getD (Json.num ⟨0, 1⟩))
          if ← pyLt p95 ⟨500, 1⟩ then pure [recLoadPassed] else pure []
        | _ => pure []
      else pure []
    else pure []
  else pure []

/-- Source lines 94-131: the recommendation list, three checks in fixed
order followed by the fallback when nothing qualified. -/
def buildRecommendations (samples : Json) : Except String (List String) := do
  let r1 ← checkErrorRate samples
  let r2 ← checkLatency samples
  let r3 ← checkOverall samples
  let recsList := r1 ++ r2 ++ r3
  pure (if recsList.isEmpty then [recFallback] else recsList)

/-- Source lines 90-136: banner, the recommendation list, the closing
banner. -/
def recsSection (samples : Json) : Tr :=
  Tr.emit [.nlBanner, .recHeader, .banner] <|
  Tr.bindE (buildRecommendations samples) fun rs =>
  Tr.emit (rs.map Line.recLine) <|
  Tr.emit [.nlBanner] Tr.done

/-- Source lines 18-136: the body of `analyze_k6_results` after a
successful load.  `samples` is computed before the header is printed. -/
def analyzeBody (data : Json) (json_file : String) : Tr :=
  Tr.bindE (pyDictGet data "metrics" (Json.obj [])) fun samples =>
  Tr.emit [.nlBanner, .title, .fileLine json_file, .bannerNl] <|
  Tr.seq (metadataSection data) <|
  Tr.seq (collectMetricsStep data) <|
  Tr.emit [.kpiHeader, .dash60] <|
  Tr.seq (durationSection samples) <|
  Tr.seq (requestsSection samples) <|
  Tr.seq (errorRateSection samples) <|
  Tr.seq (vusSection samples) <|
  Tr.seq (dataSection samples) <|
  recsSection samples

/-- Source lines 7-136: `analyze_k6_results`.  The `try` block covers
only opening and decoding the file, whose outcome is the `loadResult`
argument; on failure the error is printed and the function returns
normally. -/
def analyze_k6_results (loadResult : Except String Json) (json_file : String) : Tr :=
  match loadResult with
  | .error e => ⟨[.errorReading e], none⟩
  | .ok data => analyzeBody data json_file

/-- Source lines 138-151: `main`.  `argv` includes the program name,
`fileExists` is `Path(p).exists()`, `load` is open-plus-decode.  The
result is the printed lines and the process exit status (1 for
`sys.exit(1)` or an uncaught exception, 0 otherwise). -/
def main (argv : List String) (fileExists : String → Bool) (load : String → Except String Json) :
    List Line × Nat :=
  match argv with
  | _ :: json_file :: _ =>
    if fileExists json_file then
      let t := analyze_k6_results (load json_file) json_file
      (t.out, match t.exc with | some _ => 1 | none => 0)
    else ([.fileNotFound json_file], 1)
  | _ =>
    ([.plain "Usage: python analyze_results.py <results.json>",
      .plain "\nExample:",
      .plain "  python analyze_results.py k6-results/basic-load-test_20240103_120000.json"], 1)

/-- The error-rate recommendation chain, worded as in the specification:
high above 0.05, else elevated above 0.01, else nothing. -/
def errorRateRecsSpec (q : ℚ) : List String :=
  if 5 / 100 < q then [recHighError] else if 1 / 100 < q then [recElevatedError] else []

/-- The glyph chain of source line 66 as a function of the rational rate. -/
def rateGlyphPure (q : ℚ) : String :=
  if q < 1 / 100 then glyphGood else if q < 5 / 100 then glyphWarn else glyphCrit

/-- The latency recommendation as a function of the rational p95 value:
warning above 1000, elevated above 500, excellent otherwise. -/
def latencyRecSpec (q : ℚ) : String :=
  if 1000 < q then recLatencyWarn else if 500 < q then recLatencyElevated else recLatencyExcellent

/-- The numeric reading of a p95 entry that the latency check accepts: a
number as is, a string through `float`. -/
def p95ToFrac : Json → Option Frac
  | .num x => some x
  | .str s => parseDecimal s
  | _ => none

/-- The statistic labels of the duration lines of an output, in print
order. -/
def durStatNames (ls : List Line) : List String :=
  ls.filterMap fun l => match l with | .durStat s _ _ => some s | _ => none

/-- Values accepted where the script compares against a number: numbers
and booleans. -/
def isNumLike : Json → Bool
  | .num _ => true
  | .bool _ => true
  | _ => false

/-- Values accepted by `float` (and by the p95 comparison after its
string coercion): numbers, booleans, numeric strings. -/
def floatableVal : Json → Bool
  | .num _ => true
  | .bool _ => true
  | .str s => (parseDecimal s).isSome
  | _ => false

/-- A duration `values` field that never raises: when it is a mapping,
every recognized statistic in it is floatable. -/
def benignDurValues : Json → Bool
  | .obj fs => fs.all fun kv => !(decide (kv.1 ∈ recognizedStats)) || floatableVal kv.2
  | _ => true

/-- A metric entry of the shape the data model describes: a mapping, with
the fields the script does arithmetic on numeric where required. -/
def benignMetricEntry (name : String) (md : Json) : Bool :=
  match md with
  | .obj fs =>
    (!(name == "http_req_duration") ||
      benignDurValues ((lookupField fs "values").getD (Json.obj []))) &&
    (!(name == "http_req_failed") ||
      isNumLike ((lookupField fs "rate").getD (Json.num ⟨0, 1⟩))) &&
    (!(name == "data_received") ||
      isNumLike ((lookupField fs "value").getD (Json.num ⟨0, 1⟩))) &&
    (!(name == "data_sent") ||
      isNumLike ((lookupField fs "value").getD (Json.num ⟨0, 1⟩)))
  | _ => false

/-- A metadata field of the shape the data model describes: absent, or a
mapping whose `env`, when present, is a mapping. -/
def benignMeta : Option Json → Bool
  | none => true
  | some (.obj ms) =>
    match lookupField ms "env" with
    | none => true
    | some (.obj _) => true
    | some _ => false
  | some _ => false

/-- A metrics field of the shape the data model describes. -/
def benignMetrics : Option Json → Bool
  | none => true
  | some (.obj mfs) => mfs.all fun kv => benignMetricEntry kv.1 kv.2
  | some _ => false

/-- A result record of the shape §3 of the specification describes.  All
fields may be missing, all values not named here are arbitrary. -/
def BenignData : Json → Bool
  | .obj fs => benignMeta (lookupField fs "metadata") && benignMetrics (lookupField fs "metrics")
  | _ => false

/-- The `samples` mapping extracted at source line 18, benign. -/
def benignSamples : Json → Bool
  | .obj mfs => mfs.all fun kv => benignMetricEntry kv.1 kv.2
  | _ => false

/-- The recommendation messages of an output, in print order. -/
def recLines (ls : List Line) : List String :=
  ls.filterMap fun l => match l with | .recLine r => some r | _ => none

/-- The end-to-end scenario record of the specification. -/
def endToEndRecord : Json :=
  .obj [("metrics", .obj [
    ("http_req_duration", .obj [("values", .obj [("p(95)", .num ⟨450, 1⟩)])]),
    ("http_req_failed", .obj [("rate", .num ⟨2, 1000⟩), ("value", .num ⟨3, 1⟩)])])]

theorem Frac.blt_iff (a b : Frac) (ha : 0 < a.den) (hb : 0 < b.den) :
    a.blt b = true ↔ a.toRat < b.toRat := by
  unfold Frac.blt Frac.toRat
  rw [decide_eq_true_iff]
  rw [div_lt_div_iff₀ (by exact_mod_cast ha) (by exact_mod_cast hb)]
  exact_mod_cast Iff.rfl

theorem Frac.blt_eq_decide (a b : Frac) (ha : 0 < a.den) (hb : 0 < b.den) :
    a.blt b = decide (a.toRat < b.toRat) := by
  by_cases h : a.toRat < b.toRat
  · simp only [h, decide_eq_true_eq, decide_True]
    exact (Frac.blt_iff a b ha hb).mpr h
  · simp only [h, decide_False]
    exact Bool.eq_false_iff.mpr fun hc => h ((Frac.blt_iff a b ha hb).mp hc)

theorem lookupField_mem {fs : List (String × Json)} {k : String} {v : Json}
    (h : lookupField fs k = some v) : (k, v) ∈ fs := by
  induction fs with
  | nil => simp [lookupField] at h
  | cons p rest ih =>
    obtain ⟨a, b⟩ := p
    by_cases hk : a == k
    · simp only [lookupField, hk, if_pos] at h
      obtain rfl := Option.some.inj h
      obtain rfl := eq_of_beq hk
      exact List.mem_cons_self _ _
    · rw [lookupField, if_neg hk] at h
      exact List.mem_cons_of_mem _ (ih h)

theorem checkErrorRate_num (mfs efs : List (String × Json)) (r : Frac)
    (hf : lookupField mfs "http_req_failed" = some (.obj efs))
    (hr : (lookupField efs "rate").getD (Json.num ⟨0, 1⟩) = Json.num r)
    (hden : 0 < r.den) :
    checkErrorRate (.obj mfs) = .ok (errorRateRecsSpec r.toRat) := by
  have t5 : Frac.toRat ⟨5, 100⟩ = 5 / 100 := by norm_num [Frac.toRat]
  have t1 : Frac.toRat ⟨1, 100⟩ = 1 / 100 := by norm_num [Frac.toRat]
  have hb5 : Frac.blt ⟨5, 100⟩ r = decide (5 / 100 < r.toRat) := by
    rw [Frac.blt_eq_decide ⟨5, 100⟩ r (by norm_num) hden, t5]
  have hb1 : Frac.blt ⟨1, 100⟩ r = decide (1 / 100 < r.toRat) := by
    rw [Frac.blt_eq_decide ⟨1, 100⟩ r (by norm_num) hden, t1]
  by_cases q5 : 5 / 100 < r.toRat
  · simp [checkErrorRate, pyIn, pyIndex, pyDictGet, pyGt, hf, hr, hb5, q5,
      errorRateRecsSpec, bind, Except.bind, pure, Except.pure]
  · by_cases q1 : 1 / 100 < r.toRat
    · simp [checkErrorRate, pyIn, pyIndex, pyDictGet, pyGt, hf, hr, hb5, hb1, q5,
        errorRateRecsSpec, bind, Except.bind, pure, Except.pure]
      split_ifs <;> rfl
    · simp [checkErrorRate, pyIn, pyIndex, pyDictGet, pyGt, hf, hr, hb5, hb1, q5,
        errorRateRecsSpec, bind, Except.bind, pure, Except.pure]
      split_ifs <;> rfl

theorem latencyRecSpec_iff (q : ℚ) :
    (latencyRecSpec q = recLatencyWarn ↔ 1000 < q) ∧
    (latencyRecSpec q = recLatencyElevated ↔ (500 < q ∧ q ≤ 1000)) ∧
    (latencyRecSpec q = recLatencyExcellent ↔ q ≤ 500) := by
  have d1 : recLatencyElevated ≠ recLatencyWarn := by decide
  have d2 : recLatencyExcellent ≠ recLatencyWarn := by decide
  have d3 : recLatencyExcellent ≠ recLatencyElevated := by decide
  have d4 : recLatencyWarn ≠ recLatencyElevated := by decide
  have d5 : recLatencyWarn ≠ recLatencyExcellent := by decide
  have d6 : recLatencyElevated ≠ recLatencyExcellent := by decide
  unfold latencyRecSpec
  split_ifs with h1 h2
  · refine ⟨by simp [h1], ?_, ?_⟩
    · simp only [d4, false_iff]
      rintro ⟨-, hle⟩
      linarith
    · simp only [d5, false_iff]
      linarith
  · refine ⟨by simp [d1, h1], ?_, ?_⟩
    · simp [h2, le_of_not_lt h1]
    · simp only [d6, false_iff]
      linarith
  · refine ⟨by simp [d2, h1], ?_, ?_⟩
    · simp [h2, d3]
    · simp [le_of_not_lt h2]

theorem checkLatency_present (mfs efs vfs : List (String × Json)) (pv : Json) (x : Frac)
    (hd : lookupField mfs "http_req_duration" = some (.obj efs))
    (hv : lookupField efs "values" = some (.obj vfs))
    (hp : lookupField vfs "p(95)" = some pv)
    (hx : p95ToFrac pv = some x)
    (hden : 0 < x.den) :
    checkLatency (.obj mfs) = .ok [latencyRecSpec x.toRat] := by
  have hc : coerceP95 pv = .ok (.num x) := by
    cases pv with
    | num y => simp [p95ToFrac] at hx; simp [coerceP95, hx]
    | str s => simp [p95ToFrac] at hx; simp [coerceP95, hx]
    | null => simp [p95ToFrac] at hx
    | bool b => simp [p95ToFrac] at hx
    | arr es => simp [p95ToFrac] at hx
    | obj fs => simp [p95ToFrac] at hx
  have t1000 : Frac.toRat ⟨1000, 1⟩ = 1000 := by norm_num [Frac.toRat]
  have t500 : Frac.toRat ⟨500, 1⟩ = 500 := by norm_num [Frac.toRat]
  have hb1000 : Frac.blt ⟨1000, 1⟩ x = decide ((1000 : ℚ) < x.toRat) := by
    rw [Frac.blt_eq_decide ⟨1000, 1⟩ x (by norm_num) hden, t1000]
  have hb500 : Frac.blt ⟨500, 1⟩ x = decide ((500 : ℚ) < x.toRat) := by
    rw [Frac.blt_eq_decide ⟨500, 1⟩ x (by norm_num) hden, t500]
  by_cases q1 : (1000 : ℚ) < x.toRat
  · simp [checkLatency, pyIn, pyIndex, pyDictGet, pyGt, hd, hv, hp, hc, hb1000, q1,
      latencyRecSpec, bind, Except.bind, pure, Except.pure]
  · by_cases q2 : (500 : ℚ) < x.toRat
    · simp [checkLatency, pyIn, pyIndex, pyDictGet, pyGt, hd, hv, hp, hc, hb1000, hb500, q1,
        latencyRecSpec, bind, Except.bind, pure, Except.pure]
      split_ifs <;> rfl
    · simp [checkLatency, pyIn, pyIndex, pyDictGet, pyGt, hd, hv, hp, hc, hb1000, hb500, q1,
        latencyRecSpec, bind, Except.bind, pure, Except.pure]
      split_ifs <;> rfl

theorem rateGlyph_num (r : Frac) (hden : 0 < r.den) :
    rateGlyph (Json.num r) = .ok (rateGlyphPure r.toRat) := by
  have t1 : Frac.toRat ⟨1, 100⟩ = 1 / 100 := by norm_num [Frac.toRat]
  have t5 : Frac.toRat ⟨5, 100⟩ = 5 / 100 := by norm_num [Frac.toRat]
  have hb1 : Frac.blt r ⟨1, 100⟩ = decide (r.toRat < 1 / 100) := by
    rw [Frac.blt_eq_decide r ⟨1, 100⟩ hden (by norm_num), t1]
  have hb5 : Frac.blt r ⟨5, 100⟩ = decide (r.toRat < 5 / 100) := by
    rw [Frac.blt_eq_decide r ⟨5, 100⟩ hden (by norm_num), t5]
  simp only [rateGlyph, pyLt, bind, Except.bind, hb1, hb5, decide_eq_true_eq,
    rateGlyphPure, pure, Except.pure]
  split_ifs <;> rfl

theorem errorRateSection_num (mfs efs : List (String × Json)) (r : Frac)
    (hf : lookupField mfs "http_req_failed" = some (.obj efs))
    (hr : lookupField efs "rate" = some (.num r))
    (hden : 0 < r.den) :
    errorRateSection (.obj mfs) =
      ⟨[.errHeader, .rateLine (fmtF2 (r.mul ⟨100, 1⟩)) (rateGlyphPure r.toRat),
        .failedLine ((lookupField efs "value").getD (.num ⟨0, 1⟩))], none⟩ := by
  simp [errorRateSection, pyIn, pyIndex, pyDictGet, pyMul, hf, hr, rateGlyph_num r hden,
    Tr.bindE, Tr.emit, Tr.done]

theorem checkOverall_pass (mfs efs vfs ffs : List (String × Json)) (r : Frac)
    (hd : lookupField mfs "http_req_duration" = some (.obj efs))
    (hv : lookupField efs "values" = some (.obj vfs))
    (hp : lookupField vfs "p(95)" = none)
    (hf : lookupField mfs "http_req_failed" = some (.obj ffs))
    (hr : (lookupField ffs "rate").getD (Json.num ⟨0, 1⟩) = Json.num r)
    (hden : 0 < r.den) (hlt : r.toRat < 1 / 100) :
    checkOverall (.obj mfs) = .ok [recLoadPassed] := by
  have t1 : Frac.toRat ⟨1, 100⟩ = 1 / 100 := by norm_num [Frac.toRat]
  have hb1 : Frac.blt r ⟨1, 100⟩ = true := by
    rw [Frac.blt_eq_decide r ⟨1, 100⟩ hden (by norm_num), t1]
    simpa using hlt
  have hb0 : Frac.blt ⟨0, 1⟩ ⟨500, 1⟩ = true := by decide
  simp [checkOverall, pyIn, pyIndex, pyDictGet, pyLt, coerceP95, hd, hv, hp, hf, hr, hb1, hb0,
    bind, Except.bind, pure, Except.pure]

theorem checkLatency_noP95 (mfs efs vfs : List (String × Json))
    (hd : lookupField mfs "http_req_duration" = some (.obj efs))
    (hv : lookupField efs "values" = some (.obj vfs))
    (hp : lookupField vfs "p(95)" = none) :
    checkLatency (.obj mfs) = .ok [recLatencyExcellent] := by
  simp [checkLatency, pyIn, pyIndex, pyDictGet, pyGt, coerceP95, hd, hv, hp,
    Frac.blt, bind, Except.bind, pure, Except.pure]

theorem durStatLoop_spec (fs : List (String × Json))
    (hok : ∀ p ∈ fs, p.1 ∈ recognizedStats → ∃ x, pyFloat p.2 = .ok x) :
    (durStatLoop fs).exc = none ∧
    durStatNames (durStatLoop fs).out =
      (fs.map Prod.fst).filter (fun s => decide (s ∈ recognizedStats)) := by
  induction fs with
  | nil => simp [durStatLoop, durStatNames, Tr.done]
  | cons p rest ih =>
    obtain ⟨k, v⟩ := p
    have hrest := ih (fun q hq hm => hok q (List.mem_cons_of_mem _ hq) hm)
    by_cases hk : k ∈ recognizedStats
    · obtain ⟨x, hx⟩ := hok (k, v) (List.mem_cons_self _ _) hk
      simp [durStatLoop, hk, hx, Tr.bindE, Tr.emit, durStatNames, hrest.1]
      simpa [durStatNames] using hrest.2
    · simp [durStatLoop, hk, durStatNames, hrest.1]
      simpa [durStatNames] using hrest.2

theorem durationSection_spec (mfs efs vfs : List (String × Json))
    (hd : lookupField mfs "http_req_duration" = some (.obj efs))
    (hv : lookupField efs "values" = some (.obj vfs))
    (hok : ∀ p ∈ vfs, p.1 ∈ recognizedStats → ∃ x, pyFloat p.2 = .ok x) :
    (durationSection (.obj mfs)).exc = none ∧
    durStatNames (durationSection (.obj mfs)).out =
      (vfs.map Prod.fst).filter (fun s => decide (s ∈ recognizedStats)) := by
  have h := durStatLoop_spec vfs hok
  constructor
  · simp [durationSection, pyIn, pyIndex, pyDictGet, hd, hv, Tr.bindE, Tr.emit, h.1]
  · simp [durationSection, pyIn, pyIndex, pyDictGet, hd, hv, Tr.bindE, Tr.emit, durStatNames]
    simpa [durStatNames] using h.2

theorem Tr.exc_emit (ls : List Line) (k : Tr) : (Tr.emit ls k).exc = k.exc := rfl

theorem Tr.exc_seq_none {a : Tr} (b : Tr) (ha : a.exc = none) :
    (Tr.seq a b).exc = b.exc := by
  unfold Tr.seq
  rw [ha]

theorem benign_entry_of_lookup {mfs : List (String × Json)} {k : String} {md : Json}
    (h : benignSamples (.obj mfs) = true) (hl : lookupField mfs k = some md) :
    benignMetricEntry k md = true := by
  simp only [benignSamples, List.all_eq_true] at h
  exact h (k, md) (lookupField_mem hl)

theorem benign_entry_obj {name : String} {md : Json}
    (h : benignMetricEntry name md = true) : ∃ gs, md = Json.obj gs := by
  cases md with
  | obj gs => exact ⟨gs, rfl⟩
  | null => simp [benignMetricEntry] at h
  | bool b => simp [benignMetricEntry] at h
  | num x => simp [benignMetricEntry] at h
  | str s => simp [benignMetricEntry] at h
  | arr es => simp [benignMetricEntry] at h

theorem benign_dur_fields {gs : List (String × Json)}
    (h : benignMetricEntry "http_req_duration" (.obj gs) = true) :
    benignDurValues ((lookupField gs "values").getD (Json.obj [])) = true := by
  simpa [benignMetricEntry] using h

theorem benign_failed_rate {gs : List (String × Json)}
    (h : benignMetricEntry "http_req_failed" (.obj gs) = true) :
    isNumLike ((lookupField gs "rate").getD (Json.num ⟨0, 1⟩)) = true := by
  simpa [benignMetricEntry] using h

theorem benign_received_value {gs : List (String × Json)}
    (h : benignMetricEntry "data_received" (.obj gs) = true) :
    isNumLike ((lookupField gs "value").getD (Json.num ⟨0, 1⟩)) = true := by
  simpa [benignMetricEntry] using h

theorem benign_sent_value {gs : List (String × Json)}
    (h : benignMetricEntry "data_sent" (.obj gs) = true) :
    isNumLike ((lookupField gs "value").getD (Json.num ⟨0, 1⟩)) = true := by
  simpa [benignMetricEntry] using h

theorem floatable_pyFloat {v : Json} (h : floatableVal v = true) :
    ∃ x, pyFloat v = .ok x := by
  cases v with
  | num x => exact ⟨x, rfl⟩
  | bool b => exact ⟨_, rfl⟩
  | str s =>
    simp only [floatableVal, Option.isSome_iff_exists] at h
    obtain ⟨x, hx⟩ := h
    exact ⟨x, by simp [pyFloat, hx]⟩
  | null => simp [floatableVal] at h
  | arr es => simp [floatableVal] at h
  | obj fs => simp [floatableVal] at h

theorem floatable_coerceP95 {v : Json} (h : floatableVal v = true) :
    ∃ w, coerceP95 v = .ok w ∧ isNumLike w = true := by
  cases v with
  | num x => exact ⟨.num x, rfl, rfl⟩
  | bool b => exact ⟨.bool b, rfl, rfl⟩
  | str s =>
    simp only [floatableVal, Option.isSome_iff_exists] at h
    obtain ⟨x, hx⟩ := h
    exact ⟨.num x, by simp [coerceP95, hx], rfl⟩
  | null => simp [floatableVal] at h
  | arr es => simp [floatableVal] at h
  | obj fs => simp [floatableVal] at h

theorem pyGt_ok {v : Json} (c : Frac) (h : isNumLike v = true) :
    ∃ b, pyGt v c = .ok b := by
  cases v <;> simp [isNumLike] at h <;> simp [pyGt]

theorem pyLt_ok {v : Json} (c : Frac) (h : isNumLike v = true) :
    ∃ b, pyLt v c = .ok b := by
  cases v <;> simp [isNumLike] at h <;> simp [pyLt]

theorem pyMul_ok {v : Json} (c : Frac) (h : isNumLike v = true) :
    ∃ x, pyMul v c = .ok x := by
  cases v <;> simp [isNumLike] at h <;> simp [pyMul]

theorem pyDiv_ok {v : Json} (c : Frac) (h : isNumLike v = true) :
    ∃ x, pyDiv v c = .ok x := by
  cases v <;> simp [isNumLike] at h <;> simp [pyDiv]

theorem rateGlyph_ok {v : Json} (h : isNumLike v = true) :
    ∃ g, rateGlyph v = .ok g := by
  obtain ⟨b1, hb1⟩ := pyLt_ok ⟨1, 100⟩ h
  obtain ⟨b5, hb5⟩ := pyLt_ok ⟨5, 100⟩ h
  cases b1 <;> cases b5 <;>
    simp [rateGlyph, hb1, hb5, bind, Except.bind, pure, Except.pure]

theorem metadataSection_exc (fs : List (String × Json))
    (h : benignMeta (lookupField fs "metadata") = true) :
    (metadataSection (.obj fs)).exc = none := by
  rcases hml : lookupField fs "metadata" with _ | m
  · simp [metadataSection, pyIn, hml, Tr.bindE, Tr.done]
  · rw [hml] at h
    cases m with
    | obj ms =>
      rcases hme : lookupField ms "env" with _ | e
      · simp [metadataSection, pyIn, pyIndex, pyDictGet, hml, hme, Tr.bindE, Tr.emit, Tr.done]
      · rw [benignMeta, hme] at h
        cases e <;> simp at h <;>
          simp [metadataSection, pyIn, pyIndex, pyDictGet, hml, hme, Tr.bindE, Tr.emit, Tr.done]
    | null => simp [benignMeta] at h
    | bool b => simp [benignMeta] at h
    | num x => simp [benignMeta] at h
    | str s => simp [benignMeta] at h
    | arr es => simp [benignMeta] at h

theorem collectLoop_ok (mfs : List (String × Json))
    (h : ∀ kv ∈ mfs, ∃ gs, kv.2 = Json.obj gs) : collectLoop mfs = .ok () := by
  induction mfs with
  | nil => rfl
  | cons kv rest ih =>
    obtain ⟨gs, hgs⟩ := h kv (List.mem_cons_self _ _)
    obtain ⟨k, v⟩ := kv
    simp only at hgs
    subst hgs
    have hrest := ih fun q hq => h q (List.mem_cons_of_mem _ hq)
    rcases hlv : lookupField gs "values" with _ | w <;>
      simp [collectLoop, pyIn, pyIndex, hlv, hrest]

theorem collectMetricsStep_exc (fs : List (String × Json))
    (h : benignMetrics (lookupField fs "metrics") = true) :
    (collectMetricsStep (.obj fs)).exc = none := by
  rcases hm : lookupField fs "metrics" with _ | m
  · simp [collectMetricsStep, pyIn, hm, Tr.bindE, Tr.done]
  · rw [hm] at h
    cases m with
    | obj mfs =>
      rw [benignMetrics] at h
      rw [List.all_eq_true] at h
      have : collectLoop mfs = .ok () :=
        collectLoop_ok mfs fun kv hkv => benign_entry_obj (h kv hkv)
      simp [collectMetricsStep, pyIn, pyIndex, hm, this, Tr.bindE, Tr.done]
    | null => simp [benignMetrics] at h
    | bool b => simp [benignMetrics] at h
    | num x => simp [benignMetrics] at h
    | str s => simp [benignMetrics] at h
    | arr es => simp [benignMetrics] at h

theorem benignDurValues_floatable {vfs : List (String × Json)}
    (h : benignDurValues (.obj vfs) = true) :
    ∀ p ∈ vfs, p.1 ∈ recognizedStats → ∃ x, pyFloat p.2 = .ok x := by
  intro p hp hmem
  rw [benignDurValues, List.all_eq_true] at h
  have hb := h p hp
  rw [decide_eq_true hmem] at hb
  simp at hb
  exact floatable_pyFloat hb

theorem durationSection_exc (mfs : List (String × Json))
    (h : benignSamples (.obj mfs) = true) :
    (durationSection (.obj mfs)).exc = none := by
  rcases hd : lookupField mfs "http_req_duration" with _ | md
  · simp [durationSection, pyIn, hd, Tr.bindE, Tr.done]
  · have hbe := benign_entry_of_lookup h hd
    obtain ⟨gs, rfl⟩ := benign_entry_obj hbe
    have hv := benign_dur_fields hbe
    rcases hvv : (lookupField gs "values").getD (Json.obj []) with _ | b | x | s | es | vfs
    · simp [durationSection, pyIn, pyIndex, pyDictGet, hd, hvv, Tr.bindE, Tr.emit, Tr.done]
    · simp [durationSection, pyIn, pyIndex, pyDictGet, hd, hvv, Tr.bindE, Tr.emit, Tr.done]
    · simp [durationSection, pyIn, pyIndex, pyDictGet, hd, hvv, Tr.bindE, Tr.emit, Tr.done]
    · simp [durationSection, pyIn, pyIndex, pyDictGet, hd, hvv, Tr.bindE, Tr.emit, Tr.done]
    · simp [durationSection, pyIn, pyIndex, pyDictGet, hd, hvv, Tr.bindE, Tr.emit, Tr.done]
    · rw [hvv] at hv
      have hloop := (durStatLoop_spec vfs (benignDurValues_floatable hv)).1
      simp [durationSection, pyIn, pyIndex, pyDictGet, hd, hvv, Tr.bindE, Tr.emit, hloop]

theorem requestsSection_exc (mfs : List (String × Json))
    (h : benignSamples (.obj mfs) = true) :
    (requestsSection (.obj mfs)).exc = none := by
  rcases hq : lookupField mfs "http_requests" with _ | md
  · simp [requestsSection, pyIn, hq, Tr.bindE, Tr.done]
  · obtain ⟨gs, rfl⟩ := benign_entry_obj (benign_entry_of_lookup h hq)
    simp [requestsSection, pyIn, pyIndex, pyDictGet, hq, Tr.bindE, Tr.emit, Tr.done]

theorem errorRateSection_exc (mfs : List (String × Json))
    (h : benignSamples (.obj mfs) = true) :
    (errorRateSection (.obj mfs)).exc = none := by
  rcases hf : lookupField mfs "http_req_failed" with _ | md
  · simp [errorRateSection, pyIn, hf, Tr.bindE, Tr.done]
  · have hbe := benign_entry_of_lookup h hf
    obtain ⟨gs, rfl⟩ := benign_entry_obj hbe
    have hrate := benign_failed_rate hbe
    obtain ⟨g, hg⟩ := rateGlyph_ok hrate
    obtain ⟨x, hx⟩ := pyMul_ok ⟨100, 1⟩ hrate
    simp [errorRateSection, pyIn, pyIndex, pyDictGet, hf, hg, hx, Tr.bindE, Tr.emit, Tr.done]

theorem vusSection_exc (mfs : List (String × Json))
    (h : benignSamples (.obj mfs) = true) :
    (vusSection (.obj mfs)).exc = none := by
  have h1 : ∀ key, (Tr.bindE (pyIn key (Json.obj mfs)) fun b =>
      if b then
        Tr.bindE (pyIndex (Json.obj mfs) key) fun entry =>
        Tr.bindE (pyDictGet entry "value" (Json.num ⟨0, 1⟩)) fun v =>
        Tr.emit [.vusCur v] Tr.done
      else Tr.done).exc = none := by
    intro key
    rcases hk : lookupField mfs key with _ | md
    · simp [pyIn, hk, Tr.bindE, Tr.done]
    · obtain ⟨gs, rfl⟩ := benign_entry_obj (benign_entry_of_lookup h hk)
      simp [pyIn, pyIndex, pyDictGet, hk, Tr.bindE, Tr.emit, Tr.done]
  have h2 : ∀ key, (Tr.bindE (pyIn key (Json.obj mfs)) fun b =>
      if b then
        Tr.bindE (pyIndex (Json.obj mfs) key) fun entry =>
        Tr.bindE (pyDictGet entry "value" (Json.num ⟨0, 1⟩)) fun v =>
        Tr.emit [.vusMaxLine v] Tr.done
      else Tr.done).exc = none := by
    intro key
    rcases hk : lookupField mfs key with _ | md
    · simp [pyIn, hk, Tr.bindE, Tr.done]
    · obtain ⟨gs, rfl⟩ := benign_entry_obj (benign_entry_of_lookup h hk)
      simp [pyIn, pyIndex, pyDictGet, hk, Tr.bindE, Tr.emit, Tr.done]
  rw [vusSection, Tr.exc_emit, Tr.exc_seq_none _ (h1 "vus"), h2 "vus_max"]

theorem dataSection_exc (mfs : List (String × Json))
    (h : benignSamples (.obj mfs) = true) :
    (dataSection (.obj mfs)).exc = none := by
  have h1 : (Tr.bindE (pyIn "data_received" (Json.obj mfs)) fun b =>
      if b then
        Tr.bindE (pyIndex (Json.obj mfs) "data_received") fun entry =>
        Tr.bindE (pyDictGet entry "value" (Json.num ⟨0, 1⟩)) fun v =>
        Tr.bindE (pyDiv v ⟨1024, 1⟩) fun k =>
        Tr.emit [.dataRecv (fmtF2 (k.div ⟨1024, 1⟩))] Tr.done
      else Tr.done).exc = none := by
    rcases hk : lookupField mfs "data_received" with _ | md
    · simp [pyIn, hk, Tr.bindE, Tr.done]
    · have hbe := benign_entry_of_lookup h hk
      obtain ⟨gs, rfl⟩ := benign_entry_obj hbe
      obtain ⟨x, hx⟩ := pyDiv_ok ⟨1024, 1⟩ (benign_received_value hbe)
      simp [pyIn, pyIndex, pyDictGet, hk, hx, Tr.bindE, Tr.emit, Tr.done]
  have h2 : (Tr.bindE (pyIn "data_sent" (Json.obj mfs)) fun b =>
      if b then
        Tr.bindE (pyIndex (Json.obj mfs) "data_sent") fun entry =>
        Tr.bindE (pyDictGet entry "value" (Json.num ⟨0, 1⟩)) fun v =>
        Tr.bindE (pyDiv v ⟨1024, 1⟩) fun k =>
        Tr.emit [.dataSentLine (fmtF2 (k.div ⟨1024, 1⟩))] Tr.done
      else Tr.done).exc = none := by
    rcases hk : lookupField mfs "data_sent" with _ | md
    · simp [pyIn, hk, Tr.bindE, Tr.done]
    · have hbe := benign_entry_of_lookup h hk
      obtain ⟨gs, rfl⟩ := benign_entry_obj hbe
      obtain ⟨x, hx⟩ := pyDiv_ok ⟨1024, 1⟩ (benign_sent_value hbe)
      simp [pyIn, pyIndex, pyDictGet, hk, hx, Tr.bindE, Tr.emit, Tr.done]
  rw [dataSection, Tr.exc_emit, Tr.exc_seq_none _ h1, h2]

theorem checkErrorRate_ok (mfs : List (String × Json))
    (h : benignSamples (.obj mfs) = true) :
    ∃ l, checkErrorRate (.obj mfs) = .ok l := by
  rcases hf : lookupField mfs "http_req_failed" with _ | md
  · exact ⟨[], by simp [checkErrorRate, pyIn, hf, pure, Except.pure, bind, Except.bind]⟩
  · have hbe := benign_entry_of_lookup h hf
    obtain ⟨gs, rfl⟩ := benign_entry_obj hbe
    have hrate := benign_failed_rate hbe
    obtain ⟨b5, hb5⟩ := pyGt_ok ⟨5, 100⟩ hrate
    obtain ⟨b1, hb1⟩ := pyGt_ok ⟨1, 100⟩ hrate
    cases b5 <;> cases b1
    · exact ⟨[], by simp [checkErrorRate, pyIn, pyIndex, pyDictGet, hf, hb5, hb1,
        bind, Except.bind, pure, Except.pure]⟩
    · exact ⟨[recElevatedError], by simp [checkErrorRate, pyIn, pyIndex, pyDictGet, hf, hb5, hb1,
        bind, Except.bind, pure, Except.pure]⟩
    · exact ⟨[recHighError], by simp [checkErrorRate, pyIn, pyIndex, pyDictGet, hf, hb5, hb1,
        bind, Except.bind, pure, Except.pure]⟩
    · exact ⟨[recHighError], by simp [checkErrorRate, pyIn, pyIndex, pyDictGet, hf, hb5, hb1,
        bind, Except.bind, pure, Except.pure]⟩

theorem checkLatency_ok (mfs : List (String × Json))
    (h : benignSamples (.obj mfs) = true) :
    ∃ l, checkLatency (.obj mfs) = .ok l := by
  rcases hd : lookupField mfs "http_req_duration" with _ | md
  · exact ⟨[], by simp [checkLatency, pyIn, hd, pure, Except.pure, bind, Except.bind]⟩
  · have hbe := benign_entry_of_lookup h hd
    obtain ⟨gs, rfl⟩ := benign_entry_obj hbe
    have hv := benign_dur_fields hbe
    rcases hvv : (lookupField gs "values").getD (Json.obj []) with _ | b | x | s | es | vfs
    · exact ⟨[], by simp [checkLatency, pyIn, pyIndex, pyDictGet, hd, hvv,
        bind, Except.bind, pure, Except.pure]⟩
    · exact ⟨[], by simp [checkLatency, pyIn, pyIndex, pyDictGet, hd, hvv,
        bind, Except.bind, pure, Except.pure]⟩
    · exact ⟨[], by simp [checkLatency, pyIn, pyIndex, pyDictGet, hd, hvv,
        bind, Except.bind, pure, Except.pure]⟩
    · exact ⟨[], by simp [checkLatency, pyIn, pyIndex, pyDictGet, hd, hvv,
        bind, Except.bind, pure, Except.pure]⟩
    · exact ⟨[], by simp [checkLatency, pyIn, pyIndex, pyDictGet, hd, hvv,
        bind, Except.bind, pure, Except.pure]⟩
    · rw [hvv] at hv
      have hfl : floatableVal ((lookupField vfs "p(95)").getD (Json.num ⟨0, 1⟩)) = true := by
        rcases hp : lookupField vfs "p(95)" with _ | pv
        · rfl
        · rw [benignDurValues, List.all_eq_true] at hv
          have hb := hv _ (lookupField_mem hp)
          have hmem : ("p(95)" : String) ∈ recognizedStats := by decide
          rw [decide_eq_true hmem] at hb
          simpa using hb
      obtain ⟨w, hw, hwn⟩ := floatable_coerceP95 hfl
      obtain ⟨b1000, hb1000⟩ := pyGt_ok ⟨1000, 1⟩ hwn
      obtain ⟨b500, hb500⟩ := pyGt_ok ⟨500, 1⟩ hwn
      cases b1000 <;> cases b500
      · exact ⟨[recLatencyExcellent], by simp [checkLatency, pyIn, pyIndex, pyDictGet, hd, hvv,
          hw, hb1000, hb500, bind, Except.bind, pure, Except.pure]⟩
      · exact ⟨[recLatencyElevated], by simp [checkLatency, pyIn, pyIndex, pyDictGet, hd, hvv,
          hw, hb1000, hb500, bind, Except.bind, pure, Except.pure]⟩
      · exact ⟨[recLatencyWarn], by simp [checkLatency, pyIn, pyIndex, pyDictGet, hd, hvv,
          hw, hb1000, hb500, bind, Except.bind, pure, Except.pure]⟩
      · exact ⟨[recLatencyWarn], by simp [checkLatency, pyIn, pyIndex, pyDictGet, hd, hvv,
          hw, hb1000, hb500, bind, Except.bind, pure, Except.pure]⟩

theorem checkOverall_ok (mfs : List (String × Json))
    (h : benignSamples (.obj mfs) = true) :
    ∃ l, checkOverall (.obj mfs) = .ok l := by
  rcases hf : lookupField mfs "http_req_failed" with _ | md
  · exact ⟨[], by simp [checkOverall, pyIn, hf, pure, Except.pure, bind, Except.bind]⟩
  · have hbe := benign_entry_of_lookup h hf
    obtain ⟨gs, rfl⟩ := benign_entry_obj hbe
    have hrate := benign_failed_rate hbe
    obtain ⟨b1, hb1⟩ := pyLt_ok ⟨1, 100⟩ hrate
    cases b1 with
    | false =>
      exact ⟨[], by simp [checkOverall, pyIn, pyIndex, pyDictGet, hf, hb1,
        bind, Except.bind, pure, Except.pure]⟩
    | true =>
      rcases hd : lookupField mfs "http_req_duration" with _ | dd
      · exact ⟨[], by simp [checkOverall, pyIn, pyIndex, pyDictGet, hf, hd, hb1,
          bind, Except.bind, pure, Except.pure]⟩
      · have hbd := benign_entry_of_lookup h hd
        obtain ⟨ds, rfl⟩ := benign_entry_obj hbd
        have hv := benign_dur_fields hbd
        rcases hvv : (lookupField ds "values").getD (Json.obj []) with _ | b | x | s | es | vfs
        · exact ⟨[], by simp [checkOverall, pyIn, pyIndex, pyDictGet, hf, hd, hvv, hb1,
            bind, Except.bind, pure, Except.pure]⟩
        · exact ⟨[], by simp [checkOverall, pyIn, pyIndex, pyDictGet, hf, hd, hvv, hb1,
            bind, Except.bind, pure, Except.pure]⟩
        · exact ⟨[], by simp [checkOverall, pyIn, pyIndex, pyDictGet, hf, hd, hvv, hb1,
            bind, Except.bind, pure, Except.pure]⟩
        · exact ⟨[], by simp [checkOverall, pyIn, pyIndex, pyDictGet, hf, hd, hvv, hb1,
            bind, Except.bind, pure, Except.pure]⟩
        · exact ⟨[], by simp [checkOverall, pyIn, pyIndex, pyDictGet, hf, hd, hvv, hb1,
            bind, Except.bind, pure, Except.pure]⟩
        · rw [hvv] at hv
          have hfl : floatableVal ((lookupField vfs "p(95)").getD (Json.num ⟨0, 1⟩)) = true := by
            rcases hp : lookupField vfs "p(95)" with _ | pv
            · rfl
            · rw [benignDurValues, List.all_eq_true] at hv
              have hb := hv _ (lookupField_mem hp)
              have hmem : ("p(95)" : String) ∈ recognizedStats := by decide
              rw [decide_eq_true hmem] at hb
              simpa using hb
          obtain ⟨w, hw, hwn⟩ := floatable_coerceP95 hfl
          obtain ⟨b500, hb500⟩ := pyLt_ok ⟨500, 1⟩ hwn
          cases b500
          · exact ⟨[], by simp [checkOverall, pyIn, pyIndex, pyDictGet, hf, hd, hvv, hb1, hw,
              hb500, bind, Except.bind, pure, Except.pure]⟩
          · exact ⟨[recLoadPassed], by simp [checkOverall, pyIn, pyIndex, pyDictGet, hf, hd, hvv,
              hb1, hw, hb500, bind, Except.bind, pure, Except.pure]⟩

theorem recsSection_exc (mfs : List (String × Json))
    (h : benignSamples (.obj mfs) = true) :
    (recsSection (.obj mfs)).exc = none := by
  obtain ⟨l1, h1⟩ := checkErrorRate_ok mfs h
  obtain ⟨l2, h2⟩ := checkLatency_ok mfs h
  obtain ⟨l3, h3⟩ := checkOverall_ok mfs h
  simp [recsSection, buildRecommendations, h1, h2, h3, bind, Except.bind, pure, Except.pure,
    Tr.bindE, Tr.emit, Tr.done]

theorem benignSamples_of_data {fs : List (String × Json)}
    (h : BenignData (.obj fs) = true) :
    benignSamples ((lookupField fs "metrics").getD (Json.obj [])) = true := by
  rw [BenignData, Bool.and_eq_true] at h
  rcases hm : lookupField fs "metrics" with _ | m
  · rfl
  · have := h.2
    rw [hm] at this
    cases m with
    | obj mfs => simpa [benignMetrics, benignSamples] using this
    | null => simp [benignMetrics] at this
    | bool b => simp [benignMetrics] at this
    | num x => simp [benignMetrics] at this
    | str s => simp [benignMetrics] at this
    | arr es => simp [benignMetrics] at this

theorem analyzeBody_exc (fs : List (String × Json)) (f : String)
    (h : BenignData (.obj fs) = true) :
    (analyzeBody (.obj fs) f).exc = none := by
  have hmeta : benignMeta (lookupField fs "metadata") = true := by
    rw [BenignData, Bool.and_eq_true] at h
    exact h.1
  have hmet : benignMetrics (lookupField fs "metrics") = true := by
    rw [BenignData, Bool.and_eq_true] at h
    exact h.2
  have hsamp := benignSamples_of_data h
  rcases hs : (lookupField fs "metrics").getD (Json.obj []) with _ | b | x | st | es | mfs
  · rw [hs] at hsamp
    simp [benignSamples] at hsamp
  · rw [hs] at hsamp
    simp [benignSamples] at hsamp
  · rw [hs] at hsamp
    simp [benignSamples] at hsamp
  · rw [hs] at hsamp
    simp [benignSamples] at hsamp
  · rw [hs] at hsamp
    simp [benignSamples] at hsamp
  · rw [hs] at hsamp
    simp only [analyzeBody, pyDictGet, hs, Tr.bindE]
    rw [Tr.exc_emit, Tr.exc_seq_none _ (metadataSection_exc fs hmeta),
      Tr.exc_seq_none _ (collectMetricsStep_exc fs hmet), Tr.exc_emit,
      Tr.exc_seq_none _ (durationSection_exc mfs hsamp),
      Tr.exc_seq_none _ (requestsSection_exc mfs hsamp),
      Tr.exc_seq_none _ (errorRateSection_exc mfs hsamp),
      Tr.exc_seq_none _ (vusSection_exc mfs hsamp),
      Tr.exc_seq_none _ (dataSection_exc mfs hsamp)]
    exact recsSection_exc mfs hsamp

theorem analyzeBody_noMetrics (fs : List (String × Json)) (f : String)
    (hm : lookupField fs "metrics" = none)
    (hmeta : benignMeta (lookupField fs "metadata") = true) :
    analyzeBody (.obj fs) f =
      ⟨[.nlBanner, .title, .fileLine f, .bannerNl] ++ (metadataSection (.obj fs)).out ++
       [.kpiHeader, .dash60, .vusHeader, .dataHeader,
        .nlBanner, .recHeader, .banner, .recLine recFallback, .nlBanner], none⟩ := by
  have hexc := metadataSection_exc fs hmeta
  have hms : metadataSection (Json.obj fs) = ⟨(metadataSection (Json.obj fs)).out, none⟩ := by
    rw [← hexc]
  simp only [analyzeBody, pyDictGet, hm, Option.getD_none, Tr.bindE, collectMetricsStep, pyIn,
    Option.isSome_none]
  rw [hms]
  rfl

theorem errorRateRecsSpec_iff (q : ℚ) :
    (recHighError ∈ errorRateRecsSpec q ↔ 5 / 100 < q) ∧
    (recElevatedError ∈ errorRateRecsSpec q ↔ (1 / 100 < q ∧ q ≤ 5 / 100)) ∧
    (q ≤ 1 / 100 → errorRateRecsSpec q = []) ∧
    ¬(recHighError ∈ errorRateRecsSpec q ∧ recElevatedError ∈ errorRateRecsSpec q) := by
  have d : recHighError ≠ recElevatedError := by decide
  by_cases h5 : 5 / 100 < q
  · rw [errorRateRecsSpec, if_pos h5]
    refine ⟨⟨fun _ => h5, fun _ => List.mem_singleton.mpr rfl⟩, ?_, ?_, ?_⟩
    · exact ⟨fun hm => absurd (List.mem_singleton.mp hm) (Ne.symm d),
        fun h => absurd h5 (not_lt.mpr h.2)⟩
    · exact fun hle => absurd (lt_of_lt_of_le h5 hle) (by norm_num)
    · rintro ⟨-, hm⟩
      exact (Ne.symm d) (List.mem_singleton.mp hm)
  · by_cases h1 : 1 / 100 < q
    · rw [errorRateRecsSpec, if_neg h5, if_pos h1]
      refine ⟨⟨fun hm => absurd (List.mem_singleton.mp hm) d, fun hq => absurd hq h5⟩,
        ⟨fun _ => ⟨h1, le_of_not_lt h5⟩, fun _ => List.mem_singleton.mpr rfl⟩,
        fun hle => absurd h1 (not_lt.mpr hle), ?_⟩
      rintro ⟨hm, -⟩
      exact d (List.mem_singleton.mp hm)
    · rw [errorRateRecsSpec, if_neg h5, if_neg h1]
      exact ⟨⟨fun hm => absurd hm (List.not_mem_nil _), fun hq => absurd hq h5⟩,
        ⟨fun hm => absurd hm (List.not_mem_nil _), fun h => absurd h.1 h1⟩,
        fun _ => rfl, fun h => (List.not_mem_nil _) h.1⟩

theorem rateGlyphPure_iff (q : ℚ) :
    (rateGlyphPure q = glyphGood ↔ q < 1 / 100) ∧
    (rateGlyphPure q = glyphWarn ↔ (1 / 100 ≤ q ∧ q < 5 / 100)) ∧
    (rateGlyphPure q = glyphCrit ↔ 5 / 100 ≤ q) := by
  have d1 : glyphWarn ≠ glyphGood := by decide
  have d2 : glyphCrit ≠ glyphGood := by decide
  have d3 : glyphGood ≠ glyphWarn := by decide
  have d4 : glyphCrit ≠ glyphWarn := by decide
  have d5 : glyphGood ≠ glyphCrit := by decide
  have d6 : glyphWarn ≠ glyphCrit := by decide
  by_cases h1 : q < 1 / 100
  · rw [rateGlyphPure, if_pos h1]
    exact ⟨⟨fun _ => h1, fun _ => rfl⟩,
      ⟨fun he => absurd he d3, fun h => absurd h1 (not_lt.mpr h.1)⟩,
      ⟨fun he => absurd he d5,
        fun hle => absurd h1 (not_lt.mpr (le_trans (by norm_num) hle))⟩⟩
  · by_cases h5 : q < 5 / 100
    · rw [rateGlyphPure, if_neg h1, if_pos h5]
      exact ⟨⟨fun he => absurd he d1, fun hq => absurd hq h1⟩,
        ⟨fun _ => ⟨le_of_not_lt h1, h5⟩, fun _ => rfl⟩,
        ⟨fun he => absurd he d6, fun hle => absurd h5 (not_lt.mpr hle)⟩⟩
    · rw [rateGlyphPure, if_neg h1, if_neg h5]
      exact ⟨⟨fun he => absurd he d2, fun hq => absurd hq h1⟩,
        ⟨fun he => absurd he d4, fun h => absurd h.2 h5⟩,
        ⟨fun _ => le_of_not_lt h5, fun _ => rfl⟩⟩

theorem Frac.toRat_mul_hundred (r : Frac) : (r.mul ⟨100, 1⟩).toRat = r.toRat * 100 := by
  unfold Frac.mul Frac.toRat
  push_cast
  ring

theorem metadataSection_recLines (fs : List (String × Json))
    (h : benignMeta (lookupField fs "metadata") = true) :
    recLines (metadataSection (.obj fs)).out = [] := by
  rcases hml : lookupField fs "metadata" with _ | m
  · simp [metadataSection, pyIn, hml, Tr.bindE, Tr.done, recLines]
  · rw [hml] at h
    cases m with
    | obj ms =>
      rcases hme : lookupField ms "env" with _ | e
      · simp [metadataSection, pyIn, pyIndex, pyDictGet, hml, hme, Tr.bindE, Tr.emit, Tr.done,
          recLines]
      · rw [benignMeta, hme] at h
        cases e <;> simp at h <;>
          simp [metadataSection, pyIn, pyIndex, pyDictGet, hml, hme, Tr.bindE, Tr.emit, Tr.done,
            recLines]
    | null => simp [benignMeta] at h
    | bool b => simp [benignMeta] at h
    | num x => simp [benignMeta] at h
    | str s => simp [benignMeta] at h
    | arr es => simp [benignMeta] at h

/-- Claim C1 (amended): when the input file exists but cannot be opened or
decoded, the program reports the underlying cause and prints no report
section, but the process exits with status 0 — the error path returns
from the analyzer without forcing a nonzero exit. -/
theorem read_error_reports_and_exits_zero (prog path e : String) (rest : List String)
    (fileExists : String → Bool) (load : String → Except String Json)
    (hex : fileExists path = true) (hl : load path = .error e) :
    main (prog :: path :: rest) fileExists load = ([.errorReading e], 0) := by
  simp [main, hex, hl, analyze_k6_results]

theorem read_error_reports_and_exits_zero_witness :
    main ["analyze_results.py", "f.json"] (fun _ => true) (fun _ => .error "boom") =
      ([.errorReading "boom"], 0) :=
  read_error_reports_and_exits_zero "analyze_results.py" "f.json" "boom" []
    (fun _ => true) (fun _ => .error "boom") rfl rfl

/-- Claim C1, counterexample to the non-zero exit status: a file that
exists but fails to decode makes the program print the read error and
exit with status 0, not a non-zero status. -/
theorem read_error_exit_counterexample :
    (main ["analyze_results.py", "bad.json"] (fun _ => true)
      (fun _ => .error "Expecting value: line 1 column 1 (char 0)")).2 = 0 ∧
    (main ["analyze_results.py", "bad.json"] (fun _ => true)
      (fun _ => .error "Expecting value: line 1 column 1 (char 0)")).1 =
      [.errorReading "Expecting value: line 1 column 1 (char 0)"] :=
  ⟨rfl, rfl⟩

/-- Claim C2 (amended): when `http_req_duration.values` is a mapping whose
recognized statistics are all floatable, the duration section prints only
statistics from the recognized set, in the order the keys appear in the
input mapping (not in a fixed canonical order), and raises nothing. -/
theorem duration_stats_input_order (mfs efs vfs : List (String × Json))
    (hd : lookupField mfs "http_req_duration" = some (.obj efs))
    (hv : lookupField efs "values" = some (.obj vfs))
    (hok : ∀ p ∈ vfs, p.1 ∈ recognizedStats → ∃ x, pyFloat p.2 = .ok x) :
    (durationSection (.obj mfs)).exc = none ∧
    durStatNames (durationSection (.obj mfs)).out =
      (vfs.map Prod.fst).filter (fun s => decide (s ∈ recognizedStats)) :=
  durationSection_spec mfs efs vfs hd hv hok

theorem duration_stats_input_order_witness :
    (durationSection (.obj [("http_req_duration", .obj [("values", .obj
      [("avg", .num ⟨100, 1⟩), ("p(95)", .num ⟨200, 1⟩), ("junk", .null)])])])).exc = none ∧
    durStatNames (durationSection (.obj [("http_req_duration", .obj [("values", .obj
      [("avg", .num ⟨100, 1⟩), ("p(95)", .num ⟨200, 1⟩), ("junk", .null)])])])).out =
      ["avg", "p(95)"] := by
  have h := duration_stats_input_order
    [("http_req_duration", .obj [("values", .obj
      [("avg", .num ⟨100, 1⟩), ("p(95)", .num ⟨200, 1⟩), ("junk", .null)])])]
    [("values", .obj [("avg", .num ⟨100, 1⟩), ("p(95)", .num ⟨200, 1⟩), ("junk", .null)])]
    [("avg", .num ⟨100, 1⟩), ("p(95)", .num ⟨200, 1⟩), ("junk", .null)]
    rfl rfl ?_
  · exact ⟨h.1, by rw [h.2]; rfl⟩
  · intro p hp hm
    simp only [List.mem_cons, List.not_mem_nil, or_false] at hp
    rcases hp with rfl | rfl | rfl
    · exact ⟨⟨100, 1⟩, rfl⟩
    · exact ⟨⟨200, 1⟩, rfl⟩
    · exact absurd hm (by decide)

/-- Claim C2, counterexample to the fixed print order: with the input
mapping listing `avg` before `p(95)`, the duration lines appear as
`avg` then `p(95)`, not in the claimed fixed order `p(95)` first. -/
theorem duration_fixed_order_counterexample :
    durStatNames (durationSection (.obj [("http_req_duration", .obj [("values", .obj
      [("avg", .num ⟨100, 1⟩), ("p(95)", .num ⟨200, 1⟩)])])])).out = ["avg", "p(95)"] ∧
    (["avg", "p(95)"] : List String) ≠ ["p(95)", "avg"] :=
  ⟨rfl, by decide⟩

/-- Claim C3 (amended): for every record of the data-model shape — any
metric, field or statistic may be missing, statistic values may be
numbers, booleans or numeric strings — the summarizing body absorbs the
irregularities by defaulting and coercion and raises nothing.  (A
non-numeric statistic value, by contrast, makes it raise; see the
counterexample.) -/
theorem benign_record_never_raises (fs : List (String × Json)) (f : String)
    (h : BenignData (.obj fs) = true) :
    (analyzeBody (.obj fs) f).exc = none :=
  analyzeBody_exc fs f h

theorem benign_record_never_raises_witness :
    BenignData (.obj [("metrics", .obj
      [("http_req_duration", .obj [("values", .obj
        [("p(95)", .str "450"), ("med", .null)])]),
       ("http_req_failed", .obj [])])]) = true ∧
    (analyzeBody (.obj [("metrics", .obj
      [("http_req_duration", .obj [("values", .obj
        [("p(95)", .str "450"), ("med", .null)])]),
       ("http_req_failed", .obj [])])]) "results.json").exc = none :=
  ⟨rfl, benign_record_never_raises _ "results.json" rfl⟩

/-- Claim C3, counterexample: a non-numeric statistic string in
`http_req_duration.values` makes the summarizing body raise a
`ValueError` instead of being absorbed. -/
theorem nonnumeric_stat_raises_counterexample :
    (analyzeBody (.obj [("metrics", .obj [("http_req_duration", .obj [("values", .obj
      [("p(95)", .str "abc")])])])]) "f").exc =
      some "ValueError: could not convert string to float: abc" :=
  rfl

/-- Claim C4: when `http_req_duration.values` is a mapping with a
`p(95)` entry that is a number or numeric string, the latency check
appends exactly one of the three latency recommendations: the warning
above 1000, the elevated notice above 500 (up to 1000), the excellent
success otherwise. -/
theorem latency_rec_exactly_one (mfs efs vfs : List (String × Json)) (pv : Json) (x : Frac)
    (hd : lookupField mfs "http_req_duration" = some (.obj efs))
    (hv : lookupField efs "values" = some (.obj vfs))
    (hp : lookupField vfs "p(95)" = some pv)
    (hx : p95ToFrac pv = some x)
    (hden : 0 < x.den) :
    checkLatency (.obj mfs) = .ok [latencyRecSpec x.toRat] ∧
    (latencyRecSpec x.toRat = recLatencyWarn ↔ 1000 < x.toRat) ∧
    (latencyRecSpec x.toRat = recLatencyElevated ↔ (500 < x.toRat ∧ x.toRat ≤ 1000)) ∧
    (latencyRecSpec x.toRat = recLatencyExcellent ↔ x.toRat ≤ 500) :=
  ⟨checkLatency_present mfs efs vfs pv x hd hv hp hx hden,
    (latencyRecSpec_iff x.toRat).1, (latencyRecSpec_iff x.toRat).2.1,
    (latencyRecSpec_iff x.toRat).2.2⟩

theorem latency_rec_exactly_one_witness :
    checkLatency (.obj [("http_req_duration", .obj [("values", .obj
      [("p(95)", .str "450")])])]) = .ok [recLatencyExcellent] := by
  have h := latency_rec_exactly_one
    [("http_req_duration", .obj [("values", .obj [("p(95)", .str "450")])])]
    [("values", .obj [("p(95)", .str "450")])]
    [("p(95)", .str "450")] (.str "450") ⟨450, 1⟩ rfl rfl rfl rfl (by norm_num)
  rw [h.1]
  have : latencyRecSpec (Frac.toRat ⟨450, 1⟩) = recLatencyExcellent := by
    norm_num [latencyRecSpec, Frac.toRat]
  rw [this]

/-- Claim C5: when `http_req_failed` is present with a numeric rate
(missing rate defaults to 0), at most one error-rate recommendation is
appended — the high warning above 0.05, else the elevated warning above
0.01, and none at or below 0.01; never both. -/
theorem error_rate_rec_exclusive (mfs efs : List (String × Json)) (r : Frac)
    (hf : lookupField mfs "http_req_failed" = some (.obj efs))
    (hr : (lookupField efs "rate").getD (Json.num ⟨0, 1⟩) = Json.num r)
    (hden : 0 < r.den) :
    checkErrorRate (.obj mfs) = .ok (errorRateRecsSpec r.toRat) ∧
    (recHighError ∈ errorRateRecsSpec r.toRat ↔ 5 / 100 < r.toRat) ∧
    (recElevatedError ∈ errorRateRecsSpec r.toRat ↔ (1 / 100 < r.toRat ∧ r.toRat ≤ 5 / 100)) ∧
    (r.toRat ≤ 1 / 100 → errorRateRecsSpec r.toRat = []) ∧
    ¬(recHighError ∈ errorRateRecsSpec r.toRat ∧ recElevatedError ∈ errorRateRecsSpec r.toRat) :=
  ⟨checkErrorRate_num mfs efs r hf hr hden,
    (errorRateRecsSpec_iff r.toRat).1, (errorRateRecsSpec_iff r.toRat).2.1,
    (errorRateRecsSpec_iff r.toRat).2.2.1, (errorRateRecsSpec_iff r.toRat).2.2.2⟩

theorem error_rate_rec_exclusive_witness :
    checkErrorRate (.obj [("http_req_failed", .obj [("rate", .num ⟨2, 100⟩)])]) =
      .ok [recElevatedError] := by
  have h := error_rate_rec_exclusive
    [("http_req_failed", .obj [("rate", .num ⟨2, 100⟩)])]
    [("rate", .num ⟨2, 100⟩)] ⟨2, 100⟩ rfl rfl (by norm_num)
  rw [h.1]
  have : errorRateRecsSpec (Frac.toRat ⟨2, 100⟩) = [recElevatedError] := by
    norm_num [errorRateRecsSpec, Frac.toRat]
  rw [this]

/-- Claim C6: for every numeric `http_req_failed.rate` value `r`, the
error-rate section prints the two-decimal rendering of `r * 100` as the
percentage, and the status glyph is the good one iff `r < 0.01`, the
warning one iff `0.01 ≤ r < 0.05`, the critical one iff `0.05 ≤ r`. -/
theorem error_rate_line_format_and_glyph (mfs efs : List (String × Json)) (r : Frac)
    (hf : lookupField mfs "http_req_failed" = some (.obj efs))
    (hr : lookupField efs "rate" = some (.num r))
    (hden : 0 < r.den) :
    errorRateSection (.obj mfs) =
      ⟨[.errHeader, .rateLine (fmtF2 (r.mul ⟨100, 1⟩)) (rateGlyphPure r.toRat),
        .failedLine ((lookupField efs "value").getD (.num ⟨0, 1⟩))], none⟩ ∧
    (r.mul ⟨100, 1⟩).toRat = r.toRat * 100 ∧
    (rateGlyphPure r.toRat = glyphGood ↔ r.toRat < 1 / 100) ∧
    (rateGlyphPure r.toRat = glyphWarn ↔ (1 / 100 ≤ r.toRat ∧ r.toRat < 5 / 100)) ∧
    (rateGlyphPure r.toRat = glyphCrit ↔ 5 / 100 ≤ r.toRat) :=
  ⟨errorRateSection_num mfs efs r hf hr hden, Frac.toRat_mul_hundred r,
    (rateGlyphPure_iff r.toRat).1, (rateGlyphPure_iff r.toRat).2.1,
    (rateGlyphPure_iff r.toRat).2.2⟩

theorem error_rate_line_format_and_glyph_witness :
    errorRateSection (.obj [("http_req_failed", .obj
      [("rate", .num ⟨2, 1000⟩), ("value", .num ⟨3, 1⟩)])]) =
      ⟨[.errHeader, .rateLine "0.20" glyphGood, .failedLine (.num ⟨3, 1⟩)], none⟩ := by
  have h := error_rate_line_format_and_glyph
    [("http_req_failed", .obj [("rate", .num ⟨2, 1000⟩), ("value", .num ⟨3, 1⟩)])]
    [("rate", .num ⟨2, 1000⟩), ("value", .num ⟨3, 1⟩)] ⟨2, 1000⟩ rfl rfl (by norm_num)
  rw [h.1]
  have hg : rateGlyphPure (Frac.toRat ⟨2, 1000⟩) = glyphGood := by
    norm_num [rateGlyphPure, Frac.toRat]
  rw [hg]
  rfl

/-- Claim C7: on the record with p(95) = 450 and rate = 0.002, the output
has the good-status duration line, the good-status error-rate line
showing 0.20%, the latency-excellent recommendation and, additionally,
the load-test-passed recommendation — both recommendations together. -/
theorem end_to_end_scenario :
    analyzeBody endToEndRecord "results.json" =
      ⟨[.nlBanner, .title, .fileLine "results.json", .bannerNl,
        .kpiHeader, .dash60,
        .durHeader, .durStat "p(95)" (.num ⟨450, 1⟩) glyphGood,
        .errHeader, .rateLine "0.20" glyphGood, .failedLine (.num ⟨3, 1⟩),
        .vusHeader, .dataHeader,
        .nlBanner, .recHeader, .banner,
        .recLine recLatencyExcellent, .recLine recLoadPassed,
        .nlBanner], none⟩ ∧
    Line.durStat "p(95)" (.num ⟨450, 1⟩) glyphGood ∈ (analyzeBody endToEndRecord "results.json").out ∧
    Line.rateLine "0.20" glyphGood ∈ (analyzeBody endToEndRecord "results.json").out ∧
    Line.recLine recLatencyExcellent ∈ (analyzeBody endToEndRecord "results.json").out ∧
    Line.recLine recLoadPassed ∈ (analyzeBody endToEndRecord "results.json").out := by
  have h : analyzeBody endToEndRecord "results.json" =
      ⟨[.nlBanner, .title, .fileLine "results.json", .bannerNl,
        .kpiHeader, .dash60,
        .durHeader, .durStat "p(95)" (.num ⟨450, 1⟩) glyphGood,
        .errHeader, .rateLine "0.20" glyphGood, .failedLine (.num ⟨3, 1⟩),
        .vusHeader, .dataHeader,
        .nlBanner, .recHeader, .banner,
        .recLine recLatencyExcellent, .recLine recLoadPassed,
        .nlBanner], none⟩ := rfl
  refine ⟨h, ?_, ?_, ?_, ?_⟩ <;> rw [h] <;> simp

/-- Claim C8: a result record with no `metrics` key (its `metadata`, when
present, of the data-model shape) still gets the header and the closing
banner, the recommendation list is exactly the generic
completed-successfully fallback, and nothing raises. -/
theorem missing_metrics_fallback (fs : List (String × Json)) (f : String)
    (hm : lookupField fs "metrics" = none)
    (hmeta : benignMeta (lookupField fs "metadata") = true) :
    analyzeBody (.obj fs) f =
      ⟨[.nlBanner, .title, .fileLine f, .bannerNl] ++ (metadataSection (.obj fs)).out ++
       [.kpiHeader, .dash60, .vusHeader, .dataHeader,
        .nlBanner, .recHeader, .banner, .recLine recFallback, .nlBanner], none⟩ ∧
    recLines (analyzeBody (.obj fs) f).out = [recFallback] := by
  have h := analyzeBody_noMetrics fs f hm hmeta
  refine ⟨h, ?_⟩
  have hmr := metadataSection_recLines fs hmeta
  rw [h]
  simp only [recLines, List.filterMap_append] at hmr ⊢
  rw [hmr]
  rfl

theorem missing_metrics_fallback_witness :
    analyzeBody (.obj []) "results.json" =
      ⟨[.nlBanner, .title, .fileLine "results.json", .bannerNl,
        .kpiHeader, .dash60, .vusHeader, .dataHeader,
        .nlBanner, .recHeader, .banner, .recLine recFallback, .nlBanner], none⟩ :=
  (missing_metrics_fallback [] "results.json" rfl rfl).1

/-- Claim C9: a path that does not resolve to an existing file gets the
file-not-found message and exit status 1 with no report lines, and an
invocation without the file argument gets the usage text, with its
literal example path, and exit status 1. -/
theorem usage_and_missing_file_exit :
    (∀ (prog path : String) (rest : List String) (fileExists : String → Bool)
      (load : String → Except String Json), fileExists path = false →
      main (prog :: path :: rest) fileExists load = ([.fileNotFound path], 1)) ∧
    (∀ (prog : String) (fileExists : String → Bool) (load : String → Except String Json),
      main [prog] fileExists load =
        ([.plain "Usage: python analyze_results.py <results.json>",
          .plain "\nExample:",
          .plain "  python analyze_results.py k6-results/basic-load-test_20240103_120000.json"],
         1)) := by
  constructor
  · intro prog path rest fileExists load h
    simp [main, h]
  · intro prog fileExists load
    rfl

theorem usage_and_missing_file_exit_witness :
    main ["analyze_results.py", "nope.json"] (fun _ => false) (fun _ => .ok .null) =
      ([.fileNotFound "nope.json"], 1) ∧
    main ["analyze_results.py"] (fun _ => false) (fun _ => .ok .null) =
      ([.plain "Usage: python analyze_results.py <results.json>",
        .plain "\nExample:",
        .plain "  python analyze_results.py k6-results/basic-load-test_20240103_120000.json"],
       1) :=
  ⟨usage_and_missing_file_exit.1 "analyze_results.py" "nope.json" [] (fun _ => false)
      (fun _ => .ok .null) rfl,
    usage_and_missing_file_exit.2 "analyze_results.py" (fun _ => false) (fun _ => .ok .null)⟩

/-- Claim C10: when `http_req_duration.values` is a mapping without a
`p(95)` key, the latency check takes the p95 value as 0 and appends the
latency-excellent recommendation; and when `http_req_failed` is also
present with a numeric rate below 0.01, the overall check appends the
load-test-passed message as well. -/
theorem missing_p95_defaults_zero (mfs efs vfs : List (String × Json))
    (hd : lookupField mfs "http_req_duration" = some (.obj efs))
    (hv : lookupField efs "values" = some (.obj vfs))
    (hp : lookupField vfs "p(95)" = none) :
    checkLatency (.obj mfs) = .ok [recLatencyExcellent] ∧
    (∀ (ffs : List (String × Json)) (r : Frac),
      lookupField mfs "http_req_failed" = some (.obj ffs) →
      (lookupField ffs "rate").getD (Json.num ⟨0, 1⟩) = Json.num r → 0 < r.den →
      r.toRat < 1 / 100 → checkOverall (.obj mfs) = .ok [recLoadPassed]) :=
  ⟨checkLatency_noP95 mfs efs vfs hd hv hp,
    fun ffs r hf hr hden hlt => checkOverall_pass mfs efs vfs ffs r hd hv hp hf hr hden hlt⟩

theorem missing_p95_defaults_zero_witness :
    checkLatency (.obj [("http_req_duration", .obj [("values", .obj [("avg", .num ⟨100, 1⟩)])]),
      ("http_req_failed", .obj [("rate", .num ⟨1, 1000⟩)])]) = .ok [recLatencyExcellent] ∧
    checkOverall (.obj [("http_req_duration", .obj [("values", .obj [("avg", .num ⟨100, 1⟩)])]),
      ("http_req_failed", .obj [("rate", .num ⟨1, 1000⟩)])]) = .ok [recLoadPassed] := by
  have h := missing_p95_defaults_zero
    [("http_req_duration", .obj [("values", .obj [("avg", .num ⟨100, 1⟩)])]),
      ("http_req_failed", .obj [("rate", .num ⟨1, 1000⟩)])]
    [("values", .obj [("avg", .num ⟨100, 1⟩)])]
    [("avg", .num ⟨100, 1⟩)] rfl rfl rfl
  exact ⟨h.1, h.2 [("rate", .num ⟨1, 1000⟩)] ⟨1, 1000⟩ rfl rfl (by norm_num)
    (by norm_num [Frac.toRat])⟩

end K6
